import Mathlib

/-!
Verification of the rate-governance and request subsystem of twitchio 0.0.1a.

The embedding below follows the source files `twitchio/http.py`,
`twitchio/abcs.py` and `twitchio/client.py`.  Time values (Python
`time.time()` floats) are modelled as integers; only comparisons and the
fixed window offsets matter to the governed code paths.  Python exceptions
are modelled as `Except` error values, and the `aiohttp` network layer is
modelled as an oracle list of responses consumed one per physical request.
-/

/-- Decidable equality for `Except`, used to evaluate closed statements
about call outcomes. -/
instance exceptDecEq {ε α : Type} [DecidableEq ε] [DecidableEq α] :
    DecidableEq (Except ε α) := fun x y =>
  match x, y with
  | Except.error a, Except.error b =>
    if h : a = b then Decidable.isTrue (by rw [h])
    else Decidable.isFalse (by intro he; cases he; exact h rfl)
  | Except.error _, Except.ok _ => Decidable.isFalse (by intro h; cases h)
  | Except.ok _, Except.error _ => Decidable.isFalse (by intro h; cases h)
  | Except.ok a, Except.ok b =>
    if h : a = b then Decidable.isTrue (by rw [h])
    else Decidable.isFalse (by intro he; cases he; exact h rfl)

namespace Twitch

/-! ### twitchio/http.py : RateBucket -/

/-- `http.py` `RateBucket`: `tokens` starts at 30, `refresh` at the creation
time.  Mirrors the two instance attributes set in `__init__`. -/
structure RateBucket where
  tokens : Int
  refresh : Int
deriving DecidableEq

/-- `RateBucket()` at time `now`: `tokens = 30`, `refresh = time.time()`. -/
def RateBucket.init (now : Int) : RateBucket := ⟨30, now⟩

/-- `RateBucket.update_tokens` from `http.py`: start a fresh window when the
bucket is untouched (`tokens == 30`), reset it when the window has expired
(`refresh <= current`), then decrement `tokens`; raise the rate-limit
`Exception` exactly when the decrement lands on 0, otherwise return the new
token count.  The mutated bucket is returned alongside the call outcome. -/
def RateBucket.update_tokens (b : RateBucket) (current : Int) :
    Except Unit Int × RateBucket :=
  let b1 := if b.tokens = 30 then { b with refresh := current + 60 }
            else if b.refresh ≤ current then { tokens := 30, refresh := current + 60 }
            else b
  let b2 := { b1 with tokens := b1.tokens - 1 }
  if b2.tokens = 0 then (Except.error (), b2) else (Except.ok b2.tokens, b2)

/-- A sequence of `update_tokens` calls at the given times, collecting every
call's outcome and the final bucket state. -/
def runUpdates (b : RateBucket) : List Int → List (Except Unit Int) × RateBucket
  | [] => ([], b)
  | t :: ts =>
    let step := RateBucket.update_tokens b t
    let rest := runUpdates step.2 ts
    (step.1 :: rest.1, rest.2)

/-- Whether a call outcome is a raised exception. -/
def isErr : Except Unit Int → Bool
  | Except.error _ => true
  | Except.ok _ => false

/-- Number of raised exceptions among a list of call outcomes. -/
def countErr (l : List (Except Unit Int)) : Nat := (l.filter isErr).length

/-- The `update_bucket` decorator from `http.py`: a governed request first
runs `rates.update_tokens()`; a raised exception propagates to the caller,
otherwise the wrapped call proceeds.  The bucket state is the module-global
`rates`. -/
def governedCall (g : RateBucket) (now : Int) : Except Unit RateBucket :=
  match RateBucket.update_tokens g now with
  | (Except.error _, _) => Except.error ()
  | (Except.ok _, g') => Except.ok g'

/-- A caller issuing governed requests at the given times, stopping at the
first raised exception. -/
def governedRun (g : RateBucket) : List Int → Except Unit RateBucket
  | [] => Except.ok g
  | t :: ts =>
    match governedCall g t with
    | Except.error _ => Except.error ()
    | Except.ok g' => governedRun g' ts

/-! ### twitchio/http.py : HTTPSession and the module-global bucket -/

/-- `HTTPSession.__init__` stores only the client id (and the `aiohttp`
session); it owns no bucket of its own. -/
structure HTTPSession where
  client_id : Option String
deriving DecidableEq

/-- The bucket state a given session observes.  In `http.py` the only quota
bucket is the module-global `rates`, so every session observes that one
global bucket. -/
def observed_rates (_s : HTTPSession) (g : RateBucket) : RateBucket := g

/-- The module-global bucket state after a governed request issued through a
given session: the `update_bucket` decorator updates the global `rates`
without consulting the session. -/
def governed_through (_s : HTTPSession) (g : RateBucket) (now : Int) : RateBucket :=
  (RateBucket.update_tokens g now).2

/-- Module-global bucket state after a sequence of governed requests, each
issued through some session at some time. -/
def governed_run_through (g : RateBucket) : List (HTTPSession × Int) → RateBucket
  | [] => g
  | c :: cs => governed_run_through (governed_through c.1 g c.2) cs

/-! ### twitchio/http.py : HTTPSession._get and pagination -/

/-- A decoded JSON response body as `_get` consumes it: the `data` list and
the `pagination` key.  `pagination = none` models a body with no
`'pagination'` key; `pagination = some c` models the key being present with
`c` the value of `.get('cursor')`. -/
structure Body (α : Type) where
  data : List α
  pagination : Option (Option String)
deriving DecidableEq

/-- One network response as seen by `_get`: a decoded body, an
`aiohttp.ClientResponseError` carrying an HTTP status (the session is built
with `raise_for_status=True`), or another `aiohttp.ClientError`. -/
inductive Resp (α : Type) where
  | ok (body : Body α)
  | httpErr (status : Nat)
  | clientErr
deriving DecidableEq

/-- Outcome of `HTTPSession._get`: the returned body, a raised
`TwitchHTTPException` (with the status when it came from a
`ClientResponseError`), or a raised `KeyError` from indexing a missing
`'pagination'` key on a continuation page. -/
inductive GetOutcome (α : Type) where
  | success (body : Body α)
  | twitchError (status : Option Nat)
  | keyError
deriving DecidableEq

/-- The `while cursor:` loop inside `_get`: each iteration issues one more
request for `url + '&after=' + cursor`, appends the page's `data` onto the
accumulated body, and takes the next cursor from the page's pagination
metadata.  The oracle list supplies the successive responses; an exhausted
oracle behaves as a failed network call.  The second component counts the
physical requests made so far. -/
def paginateLoop {α : Type} :
    List (Resp α) → Body α → Option String → Nat → GetOutcome α × Nat
  | _, body, none, attempts => (GetOutcome.success body, attempts)
  | [], _, some _, attempts => (GetOutcome.twitchError none, attempts + 1)
  | r :: rest, body, some _, attempts =>
    match r with
    | Resp.httpErr s => (GetOutcome.twitchError (some s), attempts + 1)
    | Resp.clientErr => (GetOutcome.twitchError none, attempts + 1)
    | Resp.ok nb =>
      match nb.pagination with
      | none => (GetOutcome.keyError, attempts + 1)
      | some c =>
        paginateLoop rest { body with data := body.data ++ nb.data } c (attempts + 1)

/-- `HTTPSession._get`: one request for the base url; on an
`aiohttp.ClientResponseError` raise `TwitchHTTPException` with the status, on
another `aiohttp.ClientError` raise `TwitchHTTPException` without one; on
success, if the body has a `'pagination'` key follow the cursor chain,
otherwise return the body at once.  Returns the outcome together with the
total number of physical requests issued. -/
def http_get {α : Type} (rs : List (Resp α)) : GetOutcome α × Nat :=
  match rs with
  | [] => (GetOutcome.twitchError none, 1)
  | r :: rest =>
    match r with
    | Resp.httpErr s => (GetOutcome.twitchError (some s), 1)
    | Resp.clientErr => (GetOutcome.twitchError none, 1)
    | Resp.ok body =>
      match body.pagination with
      | none => (GetOutcome.success body, 1)
      | some c => paginateLoop rest body c 1

/-- The record count of a successful `_get` outcome (0 otherwise). -/
def outcomeDataLength {α : Type} : GetOutcome α × Nat → Nat
  | (GetOutcome.success b, _) => b.data.length
  | _ => 0

/-- The 3-page server fixture: pages `d1`, `d2`, `d3` chained by cursors
`c1`, `c2` and then no cursor. -/
def fixture3 {α : Type} (d1 d2 d3 : List α) : List (Resp α) :=
  [Resp.ok ⟨d1, some (some "c1")⟩,
   Resp.ok ⟨d2, some (some "c2")⟩,
   Resp.ok ⟨d3, some none⟩]

/-! ### twitchio/http.py : _populate_channels, and client.py : get_streams -/

/-- A Python value as passed for a channel argument: a string, an integer,
or a list of such values. -/
inductive PyVal where
  | s (v : String)
  | i (v : Int)
  | lst (v : List PyVal)

/-- Python `str.isdigit` restricted to ASCII digits: false on the empty
string, true iff every character is a digit. -/
def pyIsdigit (v : String) : Bool := !v.toList.isEmpty && v.toList.all Char.isDigit

/-- Adding an element to a Python `set`, modelled as an insertion-ordered
duplicate-free list. -/
def insertNew {α : Type} [BEq α] (xs : List α) (x : α) : List α :=
  if xs.contains x then xs else xs ++ [x]

/-- One iteration of the `for channel in channels` loop of
`_populate_channels`: strings of digits and integers go to `ids`, other
strings to `names`, and any other value (for instance a list) is silently
skipped by the `isinstance` chain. -/
def populateStep (acc : List String × List Int) (c : PyVal) : List String × List Int :=
  match c with
  | PyVal.s v =>
    if pyIsdigit v then (acc.1, insertNew acc.2 ((v.toNat?).getD 0 : Int))
    else (insertNew acc.1 v, acc.2)
  | PyVal.i v => (acc.1, insertNew acc.2 v)
  | PyVal.lst _ => acc

/-- `HTTPSession._populate_channels`: partition the arguments into `names`
and `ids`, raising `TwitchHTTPException` when the combined count exceeds
100. -/
def populate_channels (channels : List PyVal) :
    Except Unit (List String × List Int) :=
  let p := channels.foldl populateStep ([], [])
  if 100 < p.1.length + p.2.length then Except.error ()
  else Except.ok p

/-- The `helix` API base from `http.py`. -/
def BASE : String := "https://api.twitch.tv/helix/"

/-- `HTTPSession._get_streams` up to the point where the url is handed to
`_get`: build `user_id=`/`user_login=` pairs from the populated channels and
join them after `streams?`. -/
def get_streams_url (channels : List PyVal) : Except Unit String :=
  match populate_channels channels with
  | Except.error e => Except.error e
  | Except.ok (names, ids) =>
    let idp := ids.map (fun c => "user_id=" ++ toString c)
    let namep := names.map (fun c => "user_login=" ++ c)
    Except.ok (BASE ++ "streams?" ++ String.intercalate "&" (idp ++ namep))

/-- `TwitchClient.get_streams` from `client.py`: the caller's sequence of
channels is forwarded to `HTTPSession._get_streams(*channels)` as a single
positional argument, so the star-parameter receives the one-element tuple
holding the whole list. -/
def client_get_streams_url (channels : List PyVal) : Except Unit String :=
  get_streams_url [PyVal.lst channels]

/-! ### twitchio/cooldowns.py (absent from the sources) : chat RateBucket -/

namespace Cooldowns

/-- Modelled from the spec: the chat-side `RateBucket` lives in the
`cooldowns` module, which `abcs.py` imports but which is missing from the
source tree.  Per the spec it records the privilege class (`method`), the
numeric ceiling (`limit`), the consumed token count and the absolute
window-reset time. -/
structure RateBucket where
  method : String
  limit : Int
  tokens : Int
  reset : Int
deriving DecidableEq

/-- Modelled from the spec: the elevated (moderator) ceiling, 100 messages
per window. -/
def MODLIMIT : Int := 100

/-- Modelled from the spec: the standard ceiling, 20 messages per window. -/
def IRCLIMIT : Int := 20

/-- Modelled from the spec: `RateBucket(method=...)` sizes the ceiling from
the privilege class (`'mod'` → elevated, otherwise standard), starts with no
tokens consumed and a 30-second window. -/
def RateBucket.make (method : String) (now : Int) : RateBucket :=
  ⟨method, if method = "mod" then MODLIMIT else IRCLIMIT, 0, now + 30⟩

/-- Modelled from the spec: `update()` resets an expired window
(tokens cleared, window extended by 30 seconds) and then optimistically
consumes one token. -/
def RateBucket.update (b : RateBucket) (now : Int) : RateBucket :=
  let b1 := if b.reset ≤ now then { b with tokens := 0, reset := now + 30 } else b
  { b1 with tokens := b1.tokens + 1 }

/-- Modelled from the spec: the bucket is limited iff the consumed token
count has reached the ceiling. -/
def RateBucket.limited (b : RateBucket) : Bool := b.tokens == b.limit

end Cooldowns

/-! ### twitchio/abcs.py : IRCLimiterMapping and Messageable.send -/

/-- `IRCLimiterMapping.buckets`: a Python dict from channel name to its
bucket, modelled as an insertion-ordered association list. -/
structure IRCLimiterMapping where
  buckets : List (String × Cooldowns.RateBucket)
deriving DecidableEq

/-- Dict lookup `self.buckets[channel]`. -/
def findBucket : List (String × Cooldowns.RateBucket) → String → Option Cooldowns.RateBucket
  | [], _ => none
  | (k, v) :: t, c => if k = c then some v else findBucket t c

/-- Dict store `self.buckets[channel] = bucket` (in-place update of an
existing key, append of a new one). -/
def setBucket : List (String × Cooldowns.RateBucket) → String → Cooldowns.RateBucket →
    List (String × Cooldowns.RateBucket)
  | [], c, b => [(c, b)]
  | (k, v) :: t, c, b => if k = c then (c, b) :: t else (k, v) :: setBucket t c b

/-- `IRCLimiterMapping.get_bucket` from `abcs.py`: look the channel up,
creating and storing a fresh bucket on `KeyError`; if the stored bucket's
recorded method differs from the requested one, overwrite its `method` and
`limit` in place (`'mod'` → `MODLIMIT`, otherwise `IRCLIMIT`) and store it
back, leaving its token and window state untouched. -/
def get_bucket (m : IRCLimiterMapping) (channel method : String) (now : Int) :
    Cooldowns.RateBucket × IRCLimiterMapping :=
  match findBucket m.buckets channel with
  | none =>
    let b := Cooldowns.RateBucket.make method now
    (b, ⟨setBucket m.buckets channel b⟩)
  | some b =>
    if b.method = method then (b, m)
    else
      let b' := { b with
                    method := method
                    limit := if method = "mod" then Cooldowns.MODLIMIT else Cooldowns.IRCLIMIT }
      (b', ⟨setBucket m.buckets channel b'⟩)

/-- The context `Messageable.send` reads from its abstract accessors and the
socket: `_get_channel()` (channel, user), `_get_method()`, and the cached
`bot.is_mod` flag for the channel. -/
structure SendEnv where
  channel : String
  user : String
  method : String
  is_mod : Bool
deriving DecidableEq

/-- The exceptions `Messageable.send` can raise: `TwitchIOBException` for a
bad destination or a reached rate limit, `InvalidContent` for oversized
content or a reserved chat command. -/
inductive SendError where
  | invalidChannel
  | contentTooLong
  | unauthorisedCommand
  | rateLimited
deriving DecidableEq

/-- The `Messageable.__invalid__` tuple of reserved chat commands. -/
def invalidCmds : List String :=
  ["ban", "unban", "timeout", "w", "colour", "color", "mod",
   "unmod", "clear", "subscribers", "subscriberoff", "slow", "slowoff",
   "r9k", "r9koff", "emoteonly", "emoteonlyoff", "host", "unhost"]

/-- Python `content.lstrip('.').lstrip('/')`: drop every leading `'.'`, then
every leading `'/'`. -/
def stripCmd (content : String) : String :=
  String.mk ((content.toList.dropWhile (· == '.')).dropWhile (· == '/'))

/-- Python `s.startswith(t)` for a single pattern. -/
def beginsWith (s t : String) : Bool := t.toList.isPrefixOf s.toList

/-- Python `s.startswith(tuple)`: true iff `s` starts with any member. -/
def startswithAny (s : String) (l : List String) : Bool :=
  l.any (fun t => beginsWith s t)

/-- Python `content.replace('\n', ' ')` (the pattern is a single
character). -/
def pyReplaceNL (content : String) : String :=
  String.mk (content.toList.map (fun ch => if ch == '\n' then ' ' else ch))

/-- `Messageable.send` from `abcs.py`, in source order: destination check,
length check, command-denylist check on prefixed content (the original
content is restored when the check passes), bucket resolution via the
module-global limiter (privileged iff `bot.is_mod`), `bucket.update()`, the
`bucket.limited` rejection (the consumed token stands), newline
normalisation, and finally the `PRIVMSG` line handed to the websocket.
Returns the resulting limiter state and either the raised error or the line
written to the transport. -/
def send (env : SendEnv) (m : IRCLimiterMapping) (content : String) (now : Int) :
    IRCLimiterMapping × Except SendError String :=
  if env.channel = "" then (m, Except.error SendError.invalidChannel)
  else if 500 < content.length then (m, Except.error SendError.contentTooLong)
  else if (beginsWith content "." || beginsWith content "/")
          && startswithAny (stripCmd content) invalidCmds then
    (m, Except.error SendError.unauthorisedCommand)
  else
    let meth := if env.is_mod then "mod" else "irc"
    let r := get_bucket m env.channel meth now
    let bucket := (r.1).update now
    let m2 : IRCLimiterMapping := ⟨setBucket (r.2).buckets env.channel bucket⟩
    if bucket.limited then (m2, Except.error SendError.rateLimited)
    else
      let c2 := pyReplaceNL content
      if env.method ≠ "User" then
        (m2, Except.ok ("PRIVMSG #" ++ env.channel ++ " :" ++ c2 ++ "\r\n"))
      else
        (m2, Except.ok ("PRIVMSG #" ++ env.channel ++ " :.w " ++ env.user ++ " " ++ c2 ++ "\r\n"))

/-- The denylist test as the spec's claim words it: the prefix-stripped
remainder's first whitespace-delimited token is a member of the reserved
command list.  Stated for comparison with the source's own check, which is
`startswith` on the whole remainder. -/
def claimTokenDenylisted (content : String) : Bool :=
  invalidCmds.contains (String.mk ((stripCmd content).toList.takeWhile (· != ' ')))

/-! ### Helper lemmas -/

/-- Inside an unexpired window, on a bucket that is not untouched,
`update_tokens` just decrements and raises exactly on reaching 0. -/
theorem update_tokens_unexpired (b : RateBucket) (now : Int)
    (h1 : now < b.refresh) (h2 : b.tokens ≠ 30) :
    RateBucket.update_tokens b now =
      ((if b.tokens = 1 then Except.error () else Except.ok (b.tokens - 1)),
       ⟨b.tokens - 1, b.refresh⟩) := by
  obtain ⟨tk, rf⟩ := b
  simp only [RateBucket.update_tokens] at *
  have hr : ¬ rf ≤ now := not_le.mpr h1
  simp only [h2, if_false, hr]
  have he : (tk - 1 = 0) ↔ (tk = 1) := by omega
  by_cases ht : tk = 1 <;> simp [ht, he]

/-- With every call time inside the window and the token count nonpositive,
no call in the run raises. -/
theorem countErr_nonpos (r : Int) (times : List Int) (h1 : ∀ x ∈ times, x < r) :
    ∀ t : Int, t ≤ 0 → countErr (runUpdates ⟨t, r⟩ times).1 = 0 := by
  induction times with
  | nil => intro t _; simp [runUpdates, countErr]
  | cons x xs ih =>
    intro t ht
    have hx : x < r := h1 x (List.mem_cons_self x xs)
    have h30 : t ≠ 30 := by omega
    have hne : t ≠ 1 := by omega
    rw [runUpdates]
    rw [update_tokens_unexpired ⟨t, r⟩ x hx h30]
    simp only [hne, if_false, countErr, List.filter, isErr]
    exact ih (fun y hy => h1 y (List.mem_cons_of_mem x hy)) (t - 1) (by omega)

/-- With every call time inside the window and a consulted bucket
(`tokens < 30`), at most one call in the run raises. -/
theorem countErr_le_one (r : Int) (times : List Int) (h1 : ∀ x ∈ times, x < r) :
    ∀ t : Int, t < 30 → countErr (runUpdates ⟨t, r⟩ times).1 ≤ 1 := by
  induction times with
  | nil => intro t _; simp [runUpdates, countErr]
  | cons x xs ih =>
    intro t ht
    have hx : x < r := h1 x (List.mem_cons_self x xs)
    have h30 : t ≠ 30 := by omega
    have hxs : ∀ y ∈ xs, y < r := fun y hy => h1 y (List.mem_cons_of_mem x hy)
    rw [runUpdates]
    rw [update_tokens_unexpired ⟨t, r⟩ x hx h30]
    by_cases hone : t = 1
    · simp only [hone, if_true, countErr, List.filter, isErr, List.length_cons]
      have := countErr_nonpos r xs hxs ((1 : Int) - 1) (by omega)
      simp only [countErr] at this
      omega
    · simp only [hone, if_false, countErr, List.filter, isErr]
      have := ih hxs (t - 1) (by omega)
      simpa [countErr] using this

/-! ### Claim theorems -/

/-- C9: within a single unexpired quota window of the HTTP `RateBucket`
(every call time before `refresh`, bucket already consulted so
`tokens < 30`), at most one `update_tokens` call raises; the call made with
`tokens = 1` (the decrement to exactly 0) raises with the token already
consumed (`tokens` ends at 0), and every call made with a nonpositive token
count returns the negative count without raising. -/
theorem c9_single_rejection (t r : Int) (times : List Int)
    (h1 : ∀ x ∈ times, x < r) (h2 : t < 30) :
    countErr (runUpdates ⟨t, r⟩ times).1 ≤ 1 ∧
    (∀ b : RateBucket, ∀ now : Int, now < b.refresh → b.tokens = 1 →
      (RateBucket.update_tokens b now).1 = Except.error () ∧
      ((RateBucket.update_tokens b now).2).tokens = 0) ∧
    (∀ b : RateBucket, ∀ now : Int, now < b.refresh → b.tokens ≤ 0 →
      (RateBucket.update_tokens b now).1 = Except.ok (b.tokens - 1) ∧
      b.tokens - 1 < 0 ∧
      ((RateBucket.update_tokens b now).2).tokens = b.tokens - 1) := by
  refine ⟨countErr_le_one r times h1 t h2, ?_, ?_⟩
  · intro b now hn hb
    rw [update_tokens_unexpired b now hn (by omega)]
    simp [hb]
  · intro b now hn hb
    rw [update_tokens_unexpired b now hn (by omega)]
    have hne : b.tokens ≠ 1 := by omega
    refine ⟨by simp [hne], by omega, by simp⟩

/-- C9 witness: a concrete in-window run from 5 tokens raises at most
once. -/
theorem c9_single_rejection_witness :
    countErr (runUpdates ⟨5, 100⟩ [0, 1, 2]).1 ≤ 1 :=
  (c9_single_rejection 5 100 [0, 1, 2] (by decide) (by decide)).1

/-- C2 counterexample: quota exhaustion is surfaced to the caller — from
the module-initial bucket, the 30th governed request inside the window
raises the rate-limit exception (the first 29 succeed); no suspension
happens. -/
theorem c2_counterexample :
    governedRun (RateBucket.init 0) (List.replicate 30 (0 : Int)) = Except.error () ∧
    governedRun (RateBucket.init 0) (List.replicate 29 (0 : Int)) = Except.ok ⟨1, 60⟩ := by
  decide

/-- C2 amended: exhausting the HTTP quota bucket IS surfaced as an error to
the caller of a governed request — the governed call whose token decrement
reaches 0 inside the window propagates the rate-limit exception; there is no
suspension point. -/
theorem c2_amended_exhaustion_raises (g : RateBucket) (now : Int)
    (h1 : now < g.refresh) (h2 : g.tokens = 1) :
    governedCall g now = Except.error () := by
  unfold governedCall
  rw [update_tokens_unexpired g now h1 (by omega)]
  simp [h2]

/-- C2 witness: the governed call at one remaining token raises. -/
theorem c2_amended_exhaustion_raises_witness :
    governedCall ⟨1, 60⟩ 0 = Except.error () :=
  c2_amended_exhaustion_raises ⟨1, 60⟩ 0 (by decide) rfl

/-- C8 counterexample: two distinct HTTP sessions do not own separate
buckets — a governed request issued through the first changes the bucket
state observed by the second (the single module-global `rates`). -/
theorem c8_counterexample :
    (⟨some "a"⟩ : HTTPSession) ≠ (⟨some "b"⟩ : HTTPSession) ∧
    observed_rates ⟨some "b"⟩ (governed_through ⟨some "a"⟩ (RateBucket.init 0) 0) ≠
      observed_rates ⟨some "b"⟩ (RateBucket.init 0) := by
  decide

/-- C8 amended: all HTTP sessions share the single module-level quota
bucket: the bucket state after a sequence of governed requests depends only
on the call times, never on which sessions issued them, and the state any
session observes after a governed request is the updated shared bucket. -/
theorem c8_amended_shared_bucket (calls calls' : List (HTTPSession × Int))
    (g : RateBucket) (h : calls.map Prod.snd = calls'.map Prod.snd) :
    governed_run_through g calls = governed_run_through g calls' ∧
    (∀ s s' : HTTPSession, ∀ now : Int,
      observed_rates s (governed_through s' g now) =
        (RateBucket.update_tokens (observed_rates s g) now).2) := by
  constructor
  · induction calls generalizing calls' g with
    | nil =>
      cases calls' with
      | nil => rfl
      | cons d ds => simp at h
    | cons c cs ih =>
      cases calls' with
      | nil => simp at h
      | cons d ds =>
        simp only [List.map_cons, List.cons.injEq] at h
        obtain ⟨hfst, hrest⟩ := h
        simp only [governed_run_through, governed_through]
        rw [hfst]
        exact ih ds _ hrest
  · intro s s' now
    rfl

/-- C8 witness: requests through two different sessions drive the shared
bucket identically. -/
theorem c8_amended_shared_bucket_witness :
    governed_run_through (RateBucket.init 0) [(⟨some "a"⟩, 0)] =
      governed_run_through (RateBucket.init 0) [(⟨some "b"⟩, 0)] :=
  (c8_amended_shared_bucket [(⟨some "a"⟩, 0)] [(⟨some "b"⟩, 0)]
    (RateBucket.init 0) rfl).1

/-- C1 counterexample: against a fixture yielding 503 twice and then a
successful page, `_get` makes exactly 1 attempt (not 3) and raises
`TwitchHTTPException` with status 503 instead of returning the body. -/
theorem c1_counterexample :
    http_get [Resp.httpErr 503, Resp.httpErr 503,
              Resp.ok (⟨[1, 2, 3], some none⟩ : Body Nat)] =
      (GetOutcome.twitchError (some 503), 1) ∧ (1 : Nat) ≠ 3 := by
  decide

/-- C1 amended: the request path performs no retries at all — whenever the
first underlying call yields an HTTP error status (503 included), `_get`
stops after exactly 1 attempt and raises `TwitchHTTPException` carrying that
status, regardless of what later responses would have been. -/
theorem c1_amended_no_retry {α : Type} (status : Nat) (rest : List (Resp α)) :
    http_get (Resp.httpErr status :: rest) =
      (GetOutcome.twitchError (some status), 1) := rfl

/-- `_get` on the 3-page fixture: 3 requests, the three pages concatenated
(shared computation for the pagination claims). -/
theorem http_get_fixture3 {α : Type} (d1 d2 d3 : List α) :
    http_get (fixture3 d1 d2 d3) =
      (GetOutcome.success ⟨d1 ++ (d2 ++ d3), some (some "c1")⟩, 3) := by
  simp [http_get, fixture3, paginateLoop, List.append_assoc]

/-- C3: a paginated fetch (which takes no limit) against the 3-page fixture
of 100, 100 and 37 records chained by cursors `c1`, `c2` and then none makes
exactly 3 physical requests and returns exactly the 237 records of the three
pages concatenated in server order — nothing added, dropped or reordered. -/
theorem c3_pagination_exhaustive {α : Type} (d1 d2 d3 : List α)
    (h1 : d1.length = 100) (h2 : d2.length = 100) (h3 : d3.length = 37) :
    http_get (fixture3 d1 d2 d3) =
      (GetOutcome.success ⟨d1 ++ (d2 ++ d3), some (some "c1")⟩, 3) ∧
    (d1 ++ (d2 ++ d3)).length = 237 := by
  constructor
  · exact http_get_fixture3 d1 d2 d3
  · simp [h1, h2, h3]

/-- C3 witness: the concrete 100/100/37 fixture of zeros. -/
theorem c3_pagination_exhaustive_witness :
    http_get (fixture3 (List.replicate 100 (0 : Nat)) (List.replicate 100 0)
        (List.replicate 37 0)) =
      (GetOutcome.success
        ⟨List.replicate 100 (0 : Nat) ++ (List.replicate 100 0 ++ List.replicate 37 0),
         some (some "c1")⟩, 3) :=
  (c3_pagination_exhaustive _ _ _ (by simp) (by simp) (by simp)).1

/-- C7 counterexample: `_get` accepts no `limit` and sizes no `first`
parameter; against the 3-page 100/100/37 fixture it makes 3 physical
requests (not 2) and returns 237 records (not 150). -/
theorem c7_counterexample :
    (http_get (fixture3 (List.replicate 100 (1 : Nat)) (List.replicate 100 1)
        (List.replicate 37 1))).2 = 3 ∧
    outcomeDataLength (http_get (fixture3 (List.replicate 100 (1 : Nat))
        (List.replicate 100 1) (List.replicate 37 1))) = 237 ∧
    (3 : Nat) ≠ 2 ∧ (237 : Nat) ≠ 150 := by
  rw [http_get_fixture3]
  refine ⟨rfl, ?_, by decide, by decide⟩
  simp only [outcomeDataLength, List.length_append, List.length_replicate]

/-- C7 amended: the aggregator has no limit parameter at all, so every fetch
against the 3-page 100/100/37 fixture issues exactly 3 physical requests and
returns all 237 records; no request-count or record-count reduction from a
caller limit exists. -/
theorem c7_amended_no_limit {α : Type} (d1 d2 d3 : List α)
    (h1 : d1.length = 100) (h2 : d2.length = 100) (h3 : d3.length = 37) :
    (http_get (fixture3 d1 d2 d3)).2 = 3 ∧
    outcomeDataLength (http_get (fixture3 d1 d2 d3)) = 237 := by
  rw [http_get_fixture3]
  exact ⟨rfl, by simp [outcomeDataLength, h1, h2, h3]⟩

/-- C7 witness: the concrete 100/100/37 fixture of ones. -/
theorem c7_amended_no_limit_witness :
    (http_get (fixture3 (List.replicate 100 (1 : Nat)) (List.replicate 100 1)
        (List.replicate 37 1))).2 = 3 :=
  (c7_amended_no_limit _ _ _ (by simp) (by simp) (by simp)).1

/-- C10: `TwitchClient.get_streams` forwards the channel list as a single
positional argument, `_populate_channels` silently discards the list value
(it is neither a string nor an integer), and the resulting URL carries zero
`user_id`/`user_login` parameters whatever the list held. -/
theorem c10_streams_list_discarded (channels : List PyVal) :
    populate_channels [PyVal.lst channels] = Except.ok ([], []) ∧
    client_get_streams_url channels =
      Except.ok "https://api.twitch.tv/helix/streams?" := by
  refine ⟨rfl, rfl⟩

/-- Storing a bucket under a key makes it the one found under that key. -/
theorem findBucket_setBucket (l : List (String × Cooldowns.RateBucket))
    (c : String) (b : Cooldowns.RateBucket) :
    findBucket (setBucket l c b) c = some b := by
  induction l with
  | nil => simp [setBucket, findBucket]
  | cons kv t ih =>
    obtain ⟨k, v⟩ := kv
    by_cases hk : k = c <;> simp [setBucket, findBucket, hk, ih]

/-- C6: when `get_bucket` is called for a registered destination with a
privilege class different from the bucket's recorded one, the returned
bucket keeps its token count and window-reset time, carries the requested
class and the matching ceiling (`MODLIMIT` for `'mod'`, `IRCLIMIT`
otherwise), is the bucket now stored for the destination — and a bucket
reclassified from standard to elevated stops being limited at the token
count that previously triggered the limit. -/
theorem c6_reclassify_in_place (m : IRCLimiterMapping) (channel method : String)
    (now : Int) (b : Cooldowns.RateBucket)
    (hfound : findBucket m.buckets channel = some b) (hdiff : b.method ≠ method) :
    (get_bucket m channel method now).1.tokens = b.tokens ∧
    (get_bucket m channel method now).1.reset = b.reset ∧
    (get_bucket m channel method now).1.method = method ∧
    (get_bucket m channel method now).1.limit =
      (if method = "mod" then Cooldowns.MODLIMIT else Cooldowns.IRCLIMIT) ∧
    findBucket ((get_bucket m channel method now).2).buckets channel =
      some (get_bucket m channel method now).1 ∧
    (method = "mod" → b.limit = Cooldowns.IRCLIMIT → b.tokens = Cooldowns.IRCLIMIT →
      b.limited = true ∧ (get_bucket m channel method now).1.limited = false) := by
  unfold get_bucket
  rw [hfound]
  simp only [hdiff, if_false, findBucket_setBucket]
  refine ⟨trivial, trivial, trivial, trivial, trivial, ?_⟩
  intro hm hl ht
  constructor
  · simp [Cooldowns.RateBucket.limited, hl, ht]
  · simp [Cooldowns.RateBucket.limited, hm, ht, Cooldowns.MODLIMIT, Cooldowns.IRCLIMIT]

/-- C6 witness: a standard bucket at 20/20 tokens reclassified to `'mod'`
keeps its 20 tokens and is no longer limited. -/
theorem c6_reclassify_in_place_witness :
    (get_bucket ⟨[("chan", ⟨"irc", 20, 20, 42⟩)]⟩ "chan" "mod" 0).1.limited = false ∧
    (get_bucket ⟨[("chan", ⟨"irc", 20, 20, 42⟩)]⟩ "chan" "mod" 0).1.tokens = 20 := by
  have h := c6_reclassify_in_place ⟨[("chan", ⟨"irc", 20, 20, 42⟩)]⟩ "chan" "mod" 0
    ⟨"irc", 20, 20, 42⟩ (by decide) (by decide)
  exact ⟨(h.2.2.2.2.2 rfl (by decide) (by decide)).2, h.1⟩

/-- C4: a chat send whose content exceeds 500 characters (to a valid
destination) is rejected with the content error while the limiter state is
returned untouched — no bucket is created, looked up or mutated, and no line
reaches the transport. -/
theorem c4_oversize_rejected_early (env : SendEnv) (m : IRCLimiterMapping)
    (content : String) (now : Int)
    (hch : env.channel ≠ "") (hlen : 500 < content.length) :
    send env m content now = (m, Except.error SendError.contentTooLong) := by
  unfold send
  simp [hch, hlen]

/-- C4 witness: a 501-character send is rejected with the bucket registry
left empty. -/
theorem c4_oversize_rejected_early_witness :
    send ⟨"chan", "", "Channel", false⟩ ⟨[]⟩ (String.mk (List.replicate 501 'a')) 0 =
      (⟨[]⟩, Except.error SendError.contentTooLong) :=
  c4_oversize_rejected_early _ _ _ _ (by decide)
    (by show 500 < (List.replicate 501 'a').length
        rw [List.length_replicate]
        omega)

/-- C5 counterexample: the denylist check is not membership of the stripped
remainder's command token — `.wow hello` strips to `wow hello`, whose first
token `wow` is on no denylist, yet the send is rejected because the
remainder merely starts with the reserved command `w`. -/
theorem c5_counterexample :
    (send ⟨"chan", "", "Channel", false⟩ ⟨[]⟩ ".wow hello" 0).2 =
      Except.error SendError.unauthorisedCommand ∧
    claimTokenDenylisted ".wow hello" = false := by
  decide

/-- C5 amended: for a send whose content begins with `'.'` or `'/'` (valid
destination, length within bounds), the send is rejected with the
unauthorised-command error if and only if the prefix-stripped remainder
STARTS WITH one of the fixed denylist of transport-reserved command tokens;
otherwise — when the destination bucket does not limit the send — the
original content, its leading prefix character included, is emitted to the
transport verbatim (newline normalisation aside).  In particular
`.ban someone` is rejected and `.shoutout someone` is sent verbatim with the
leading dot. -/
theorem c5_amended_startswith_denylist (env : SendEnv) (m : IRCLimiterMapping)
    (content : String) (now : Int)
    (hch : env.channel ≠ "") (hlen : content.length ≤ 500)
    (hpre : (beginsWith content "." || beginsWith content "/") = true) :
    ((send env m content now).2 = Except.error SendError.unauthorisedCommand ↔
      startswithAny (stripCmd content) invalidCmds = true) ∧
    (startswithAny (stripCmd content) invalidCmds = false →
      (((get_bucket m env.channel (if env.is_mod then "mod" else "irc") now).1.update
          now).limited = false) →
      env.method ≠ "User" →
      (send env m content now).2 =
        Except.ok ("PRIVMSG #" ++ env.channel ++ " :" ++ pyReplaceNL content ++ "\r\n")) := by
  have hlen' : ¬ 500 < content.length := not_lt.mpr hlen
  by_cases hs : startswithAny (stripCmd content) invalidCmds
  · constructor
    · simp [send, hch, hlen', hpre, hs]
    · intro h2
      rw [hs] at h2
      cases h2
  · by_cases hl : (((get_bucket m env.channel (if env.is_mod then "mod" else "irc")
        now).1.update now).limited = true)
    · constructor
      · simp [send, hch, hlen', hpre, hs, hl]
      · intro _ hlim
        rw [hl] at hlim
        cases hlim
    · constructor
      · by_cases hm : env.method = "User" <;> simp [send, hch, hlen', hpre, hs, hl, hm]
      · intro _ _ hmeth
        simp [send, hch, hlen', hpre, hs, hl, hmeth]

/-- C5 witness: `.ban someone` is rejected as an unauthorised command while
`.shoutout someone` is written to the transport verbatim, dot included. -/
theorem c5_amended_startswith_denylist_witness :
    (send ⟨"chan", "", "Channel", false⟩ ⟨[]⟩ ".ban someone" 0).2 =
      Except.error SendError.unauthorisedCommand ∧
    (send ⟨"chan", "", "Channel", false⟩ ⟨[]⟩ ".shoutout someone" 0).2 =
      Except.ok "PRIVMSG #chan :.shoutout someone\r\n" := by
  constructor
  · exact ((c5_amended_startswith_denylist ⟨"chan", "", "Channel", false⟩ ⟨[]⟩
      ".ban someone" 0 (by decide) (by decide) (by decide)).1).mpr (by decide)
  · have h := (c5_amended_startswith_denylist ⟨"chan", "", "Channel", false⟩ ⟨[]⟩
      ".shoutout someone" 0 (by decide) (by decide) (by decide)).2
      (by decide) (by decide) (by decide)
    exact h.trans (by decide)

end Twitch
